import Mathlib

/-!
Shallow embedding of the BankingSystem front end (src/frontend) in Lean 4.

Conventions of the embedding:
* Python `float` currency amounts are modelled as `ℚ`; no claim settled here
  depends on binary floating-point rounding noise.
* Python's in-place object mutation is modelled by explicit state passing:
  each operation takes the state and returns the new state together with its
  outcome.
* A Python function that returns `None` / `False` on failure is modelled with
  `Option` / `Bool`; a function that raises on failure returns `Option`.
* Python `dict` is modelled as an insertion-ordered association list with
  replace-or-append update; `set` is modelled as a list used only through
  membership.
-/

namespace Banking

/-- Python `str.strip()`: drop whitespace from both ends.  Written over the
character list so that it evaluates by structural recursion. -/
def pyStrip (s : String) : String :=
  String.mk (((s.data.dropWhile Char.isWhitespace).reverse.dropWhile
    Char.isWhitespace).reverse)

/-- Python `s[:n]`: the first `n` characters. -/
def pyTake (n : Nat) (s : String) : String :=
  String.mk (s.data.take n)

/-- Python `str.lower()`. -/
def pyLower (s : String) : String :=
  String.mk (s.data.map Char.toLower)

/-- Python `int` on a string of decimal digits (`0` on the empty string,
matching the `if digits: ... else: 0` guard at the call site). -/
def digitsToNat (l : List Char) : Nat :=
  l.foldl (fun n c => n * 10 + (c.toNat - '0'.toNat)) 0

/-- `n` copies of the space character, as a string. -/
def spaces (n : Nat) : String :=
  String.mk (List.replicate n ' ')

/-- Left-pad `s` with `'0'` up to width `w` (Python `str.zfill` on digit
strings, and the digit part of the `0`-flagged format specifier). -/
def padZeros (w : Nat) (s : String) : String :=
  String.mk (List.replicate (w - s.length) '0') ++ s

/-- Python `f"{s:<w}"`: left-justify, blank-pad to width `w` (no truncation). -/
def ljust (w : Nat) (s : String) : String :=
  s ++ spaces (w - s.length)

/-- `str(x).strip().zfill(5)`: the account-number normalisation used by
`AccountManager`. -/
def zfill5 (s : String) : String :=
  padZeros 5 (pyStrip s)

/-- Truncation of a rational toward zero: Python `int(x)` on a number. -/
def truncInt (q : ℚ) : ℤ :=
  if 0 ≤ q then ⌊q⌋ else ⌈q⌉

/-- Python `round` on a non-negative value, modelled as round-half-up
(`⌊x + 1/2⌋`).  Python rounds exact ties half-to-even, but every call site
feeds it `(amount - int(amount)) * 100` of a non-negative currency amount and
no settled claim depends on tie behaviour. -/
def pyRound (q : ℚ) : ℤ :=
  ⌊q + 1 / 2⌋

/-! ## BankAccount (src/frontend/bank_account.py) -/

/-- One bank account record: `BankAccount.__init__` fields after its own
normalisation (`zfill`, `strip()[:20]`). -/
structure BankAccount where
  account_number : String
  holder_name : String
  balance : ℚ
  status : String
  plan : String
deriving DecidableEq, Repr

/-- `BankAccount.__init__`: normalises its arguments before storing them —
the number is zero-filled to 5 digits, the name is stripped and then
truncated to 20 characters (again, even when the caller already did so),
and invalid status / plan values fall back to `"A"` / `"SP"`. -/
def BankAccount.make (account_number holder_name : String) (balance : ℚ)
    (status plan : String) : BankAccount :=
  { account_number := padZeros 5 account_number
    holder_name := pyTake 20 (pyStrip holder_name)
    balance := balance
    status := if status = "A" ∨ status = "D" then status else "A"
    plan := if plan = "SP" ∨ plan = "NP" then plan else "SP" }

/-- `BankAccount.withdraw`: deducts `amount` from the balance when positive
and covered; `none` models the `False` return (no mutation). -/
def BankAccount.withdraw (a : BankAccount) (amount : ℚ) : Option BankAccount :=
  if amount ≤ 0 then none
  else if a.balance ≥ amount then some { a with balance := a.balance - amount }
  else none

/-- `BankAccount.deposit`: adds `amount` to the balance when positive;
`none` models the `False` return (no mutation). -/
def BankAccount.deposit (a : BankAccount) (amount : ℚ) : Option BankAccount :=
  if amount ≤ 0 then none
  else some { a with balance := a.balance + amount }

/-- `BankAccount.is_valid_for`: active and held by `user` (both names
stripped; `user is None` fails). -/
def BankAccount.is_valid_for (a : BankAccount) (user : Option String) : Bool :=
  if a.status ≠ "A" then false
  else match user with
    | none => false
    | some u => pyStrip a.holder_name == pyStrip u

/-! ## TransactionLog (src/frontend/TransactionLog.py)

Each `log_X` method appends one formatted line to `self.transactions`;
here the line builders are pure functions and the buffer is a `List String`
threaded through the processor state. -/

/-- `TransactionLog._format_account`: keep only digit characters, parse
(defaulting to 0 when nothing remains), re-render zero-padded to 5 digits. -/
def format_account (account_number : String) : String :=
  let digits := account_number.data.filter Char.isDigit
  let num : Nat := digitsToNat digits
  padZeros 5 (toString num)

/-- `TransactionLog._format_amount`: split into truncated dollars and rounded
cents, carry an overflowed cent (≥ 100) into the dollar part, render as
zero-padded dollars, `"."`, two-digit cents.  Call sites only pass
non-negative amounts, for which the zero-padding of `toString` matches
Python's `05d`. -/
def format_amount (amount : ℚ) : String :=
  let dollars : ℤ := truncInt amount
  let cents : ℤ := pyRound ((amount - dollars) * 100)
  let dollars : ℤ := if cents ≥ 100 then dollars + 1 else dollars
  let cents : ℤ := if cents ≥ 100 then cents - 100 else cents
  padZeros 5 (toString dollars) ++ "." ++ padZeros 2 (toString cents)

/-- The f-string shared by every `log_X` method:
`f"{code} {name:<20} {acc} {amt} {misc}"`. -/
def record_line (code name acc amt misc : String) : String :=
  code ++ " " ++ ljust 20 name ++ " " ++ acc ++ " " ++ amt ++ " " ++ misc

/-- `TransactionLog.log_withdrawal` (code 01, blank 4-char misc). -/
def log_withdrawal_line (account_number : String) (amount : ℚ) : String :=
  record_line "01" "" (format_account account_number) (format_amount amount) (spaces 4)

/-- `TransactionLog.log_transfer` (code 02, destination account in misc). -/
def log_transfer_line (from_account to_account : String) (amount : ℚ) : String :=
  record_line "02" "" (format_account from_account) (format_amount amount)
    (format_account to_account)

/-- `TransactionLog.log_paybill` (code 03, company code left-justified in a
4-char misc). -/
def log_paybill_line (account_number : String) (amount : ℚ) (company_code : String) : String :=
  record_line "03" "" (format_account account_number) (format_amount amount)
    (ljust 4 company_code)

/-- `TransactionLog.log_deposit` (code 04, blank misc). -/
def log_deposit_line (account_number : String) (amount : ℚ) : String :=
  record_line "04" "" (format_account account_number) (format_amount amount) (spaces 4)

/-- `TransactionLog.log_create` (code 05, misc `"SP  "`). -/
def log_create_line (account_number : String) (amount : ℚ) : String :=
  record_line "05" "" (format_account account_number) (format_amount amount) "SP  "

/-- `TransactionLog.log_delete` (code 06, literal zero amount, blank misc). -/
def log_delete_line (account_number : String) : String :=
  record_line "06" "" (format_account account_number) "00000.00" (spaces 4)

/-- `TransactionLog.log_disable` (code 07, literal zero amount, blank misc). -/
def log_disable_line (account_number : String) : String :=
  record_line "07" "" (format_account account_number) "00000.00" (spaces 4)

/-- `TransactionLog.log_change_plan` (code 08, literal zero amount, misc
`"NP  "`). -/
def log_change_plan_line (account_number : String) : String :=
  record_line "08" "" (format_account account_number) "00000.00" "NP  "

/-- The end-of-session marker written by `write_to_file`: `"00"` followed by
38 spaces. -/
def end_marker : String :=
  "00" ++ spaces 38

/-- The sequence of lines `TransactionLog.write_to_file` emits: every buffered
transaction in append (chronological) order, then the end-of-session marker. -/
def write_lines (transactions : List String) : List String :=
  transactions ++ [end_marker]

/-- The misc field of a record line: everything after the fixed
2+1+20+1+5+1+8+1 = 39-character prefix. -/
def misc_field (line : String) : String :=
  String.mk (line.data.drop 39)

/-! ## SessionManager (src/frontend/session_manager.py) -/

def STANDARD_WITHDRAWAL_LIMIT : ℚ := 500
def STANDARD_TRANSFER_LIMIT : ℚ := 1000
def STANDARD_PAYBILL_LIMIT : ℚ := 2000

/-- Session state: `SessionManager.__init__` fields.  `session_mode` is
`None`, `"standard"` or `"admin"`; `current_user_name` is `None` outside a
standard session. -/
structure SessionManager where
  logged_in : Bool
  session_mode : Option String
  current_user_name : Option String
  withdrawal_total : ℚ
  transfer_total : ℚ
  paybill_total : ℚ
deriving DecidableEq, Repr

/-- The state after `__init__`, `end_session` / `logout`: no active session,
all running totals zero. -/
def SessionManager.cleared : SessionManager :=
  { logged_in := false
    session_mode := none
    current_user_name := none
    withdrawal_total := 0
    transfer_total := 0
    paybill_total := 0 }

/-- `SessionManager.start_standard_session`. -/
def SessionManager.start_standard_session (user_name : String) : SessionManager :=
  { logged_in := true
    session_mode := some "standard"
    current_user_name := some user_name
    withdrawal_total := 0
    transfer_total := 0
    paybill_total := 0 }

/-- `SessionManager.start_admin_session`. -/
def SessionManager.start_admin_session : SessionManager :=
  { logged_in := true
    session_mode := some "admin"
    current_user_name := none
    withdrawal_total := 0
    transfer_total := 0
    paybill_total := 0 }

/-- `SessionManager.end_session` (also `logout`): reset every field. -/
def SessionManager.end_session (_ : SessionManager) : SessionManager :=
  SessionManager.cleared

/-- `SessionManager.is_logged_in`. -/
def SessionManager.is_logged_in (s : SessionManager) : Bool :=
  s.logged_in

/-- `SessionManager.is_admin` / `is_admin_mode`. -/
def SessionManager.is_admin (s : SessionManager) : Bool :=
  s.session_mode == some "admin"

/-- `SessionManager.can_withdraw`: admin sessions always pass; otherwise the
projected total may not exceed the $500 limit. -/
def SessionManager.can_withdraw (s : SessionManager) (amount : ℚ) : Bool :=
  if s.session_mode == some "admin" then true
  else if s.withdrawal_total + amount > STANDARD_WITHDRAWAL_LIMIT then false
  else true

/-- `SessionManager.record_withdrawal`. -/
def SessionManager.record_withdrawal (s : SessionManager) (amount : ℚ) : SessionManager :=
  { s with withdrawal_total := s.withdrawal_total + amount }

/-- `SessionManager.can_transfer`: admin sessions always pass; otherwise the
projected total may not exceed the $1000 limit. -/
def SessionManager.can_transfer (s : SessionManager) (amount : ℚ) : Bool :=
  if s.session_mode == some "admin" then true
  else if s.transfer_total + amount > STANDARD_TRANSFER_LIMIT then false
  else true

/-- `SessionManager.record_transfer`. -/
def SessionManager.record_transfer (s : SessionManager) (amount : ℚ) : SessionManager :=
  { s with transfer_total := s.transfer_total + amount }

/-- `SessionManager.can_pay_bill`: admin sessions always pass; otherwise the
projected total may not exceed the $2000 limit. -/
def SessionManager.can_pay_bill (s : SessionManager) (amount : ℚ) : Bool :=
  if s.session_mode == some "admin" then true
  else if s.paybill_total + amount > STANDARD_PAYBILL_LIMIT then false
  else true

/-- `SessionManager.record_pay_bill`. -/
def SessionManager.record_pay_bill (s : SessionManager) (amount : ℚ) : SessionManager :=
  { s with paybill_total := s.paybill_total + amount }

/-! ## AccountManager (src/frontend/account_manager.py) -/

/-- Replace-or-append update of an association list: Python
`dict[key] = value`. -/
def setAssoc (l : List (String × BankAccount)) (k : String) (v : BankAccount) :
    List (String × BankAccount) :=
  match l with
  | [] => [(k, v)]
  | (k', v') :: rest => if k' == k then (k, v) :: rest else (k', v') :: setAssoc rest k v

/-- The ledger: `accounts` models the `dict` from normalised account number
to account record, `deleted_set` the tombstone `set` (used only through
membership). -/
structure AccountManager where
  accounts : List (String × BankAccount)
  deleted_set : List String
deriving DecidableEq, Repr

/-- `AccountManager.get_account`: normalise, refuse tombstoned numbers,
otherwise look up the dictionary. -/
def AccountManager.get_account (am : AccountManager) (account_number : String) :
    Option BankAccount :=
  let n := zfill5 account_number
  if am.deleted_set.contains n then none
  else am.accounts.lookup n

/-- Store `v` under the normalised key for `account_number` (the in-place
mutation of the `BankAccount` object held in `self.accounts`). -/
def AccountManager.set_account (am : AccountManager) (account_number : String)
    (v : BankAccount) : AccountManager :=
  { am with accounts := setAssoc am.accounts (zfill5 account_number) v }

/-- Whether the candidate number for index `i` is usable: in neither the
accounts dictionary nor the tombstone set (the loop-body test of
`_generate_unique_account_number`). -/
def AccountManager.isFree (am : AccountManager) (i : Nat) : Bool :=
  let candidate := padZeros 5 (toString i)
  (am.accounts.lookup candidate).isNone && !(am.deleted_set.contains candidate)

/-- The `for i in range(100000)` scan of `_generate_unique_account_number`,
written with an explicit start index and fuel so induction follows the loop:
returns the first free index at or after `start`. -/
def AccountManager.scanFree (am : AccountManager) : Nat → Nat → Option Nat
  | _, 0 => none
  | start, fuel + 1 =>
    if am.isFree start then some start else am.scanFree (start + 1) fuel

/-- `AccountManager._generate_unique_account_number`: first candidate in
`00000`–`99999` free of both sets; `none` models the `RuntimeError` when all
100000 numbers are taken. -/
def AccountManager.generate_unique_account_number (am : AccountManager) : Option String :=
  (am.scanFree 0 100000).map (fun i => padZeros 5 (toString i))

/-- `AccountManager.create_account`: trim and truncate the holder name,
clamp the balance into `[0, 99999.99]`, allocate a fresh number, insert a
new active student-plan account.  `none` propagates exhaustion of the number
space. -/
def AccountManager.create_account (am : AccountManager) (holder_name : String)
    (balance : ℚ) : Option (AccountManager × String) :=
  let name := pyTake 20 (pyStrip holder_name)
  let bal := max 0 (min balance (99999.99 : ℚ))
  match am.generate_unique_account_number with
  | none => none
  | some new_number =>
    some ({ am with
              accounts := setAssoc am.accounts new_number
                (BankAccount.make new_number name bal "A" "SP") },
          new_number)

/-- `AccountManager.delete_account`: tombstone the normalised number when it
is a key of the accounts dictionary (which deletion never shrinks); the
`Bool` is the Python return value. -/
def AccountManager.delete_account (am : AccountManager) (account_number : String) :
    AccountManager × Bool :=
  if (am.accounts.lookup (zfill5 account_number)).isSome then
    ({ am with deleted_set := zfill5 account_number :: am.deleted_set }, true)
  else
    (am, false)

/-- `AccountManager.user_exists`: some stored account's holder name matches
case-insensitively after trimming. -/
def AccountManager.user_exists (am : AccountManager) (user_name : String) : Bool :=
  am.accounts.any (fun p => pyLower (pyStrip p.2.holder_name) == pyLower (pyStrip user_name))

/-! ## TransactionProcessor (src/frontend/TransactionProcessor.py)

Each `process_X` method reads its operands interactively; here they are
parameters (the `input(...).strip()` is applied at entry).  The outcome tag
names the `print`ed error branch taken, `ok` the success path. -/

/-- Outcome of one processor call: one constructor per error branch. -/
inductive TxResult where
  | ok
  | notLoggedIn
  | accountNotFound
  | accountDisabled
  | notOwner
  | destNotFound
  | destDisabled
  | invalidAmount
  | limitExceeded
  | insufficientFunds
deriving DecidableEq, Repr

/-- The mutable state a `TransactionProcessor` works on: the session, the
ledger and the transaction-record buffer. -/
structure SystemState where
  session : SessionManager
  accounts : AccountManager
  log : List String
deriving DecidableEq, Repr

/-- `TransactionProcessor.process_withdrawal` for an already-parsed amount:
login, existence, active, ownership (standard mode), positivity, session
limit, then the ledger debit; on success record session usage and append one
withdrawal record. -/
def process_withdrawal (st : SystemState) (account_number : String) (amount : ℚ) :
    SystemState × TxResult :=
  let acc_num := pyStrip account_number
  if !st.session.is_logged_in then (st, .notLoggedIn)
  else match st.accounts.get_account acc_num with
  | none => (st, .accountNotFound)
  | some account =>
    if account.status ≠ "A" then (st, .accountDisabled)
    else if !st.session.is_admin && !(account.is_valid_for st.session.current_user_name)
      then (st, .notOwner)
    else if amount ≤ 0 then (st, .invalidAmount)
    else if !(st.session.can_withdraw amount) then (st, .limitExceeded)
    else match account.withdraw amount with
      | some account' =>
        ({ session := st.session.record_withdrawal amount
           accounts := st.accounts.set_account acc_num account'
           log := st.log ++ [log_withdrawal_line acc_num amount] }, .ok)
      | none => (st, .insufficientFunds)

/-- `TransactionProcessor.process_transfer` for already-parsed operands.
Both accounts must exist and be active; ownership is checked on the source
only (standard mode).  On success the source debit happens first and the
destination credit reads the post-debit ledger, so an aliased
source/destination behaves like Python's single shared object.  Exactly one
transfer record is appended. -/
def process_transfer (st : SystemState) (from_account to_account : String) (amount : ℚ) :
    SystemState × TxResult :=
  let from_acc := pyStrip from_account
  let to_acc := pyStrip to_account
  if !st.session.is_logged_in then (st, .notLoggedIn)
  else match st.accounts.get_account from_acc with
  | none => (st, .accountNotFound)
  | some account_from =>
    if account_from.status ≠ "A" then (st, .accountDisabled)
    else if !st.session.is_admin && !(account_from.is_valid_for st.session.current_user_name)
      then (st, .notOwner)
    else match st.accounts.get_account to_acc with
    | none => (st, .destNotFound)
    | some account_to =>
      if account_to.status ≠ "A" then (st, .destDisabled)
      else if amount ≤ 0 then (st, .invalidAmount)
      else if !(st.session.can_transfer amount) then (st, .limitExceeded)
      else match account_from.withdraw amount with
        | some account_from' =>
          let am1 := st.accounts.set_account from_acc account_from'
          let to_now := (am1.get_account to_acc).getD account_to
          let to_next := (to_now.deposit amount).getD to_now
          ({ session := st.session.record_transfer amount
             accounts := am1.set_account to_acc to_next
             log := st.log ++ [log_transfer_line from_acc to_acc amount] }, .ok)
        | none => (st, .insufficientFunds)

/-- `TransactionProcessor.process_logout`: when logged in, write the buffered
records plus the end-of-session marker (the `write_to_file` attempt is
modelled by `io_ok`: `some lines` when the write succeeds, `none` when the
caught I/O exception loses them), then reset the session unconditionally. -/
def process_logout (st : SystemState) (io_ok : Bool) :
    SystemState × Option (List String) :=
  if !st.session.is_logged_in then (st, none)
  else
    let written := if io_ok then some (write_lines st.log) else none
    ({ st with session := st.session.end_session }, written)

/-- Outcome of `FrontEndApp.handle_login`. -/
inductive LoginResult where
  | ok
  | alreadyLoggedIn
  | unknownUser
  | invalidSessionType
deriving DecidableEq, Repr

/-- `FrontEndApp.handle_login`: refuse when already logged in; standard
logins require an account holder with the given name; admin logins always
start. -/
def handle_login (st : SystemState) (session_type user_name : String) :
    SystemState × LoginResult :=
  if st.session.is_logged_in then (st, .alreadyLoggedIn)
  else if pyLower (pyStrip session_type) == "standard" then
    if !(st.accounts.user_exists (pyStrip user_name)) then (st, .unknownUser)
    else ({ st with session := SessionManager.start_standard_session (pyStrip user_name) }, .ok)
  else if pyLower (pyStrip session_type) == "admin" then
    ({ st with session := SessionManager.start_admin_session }, .ok)
  else (st, .invalidSessionType)

/-! ## General lemmas about the embedding -/

theorem dropWhile_rdropWhile_dropWhile (p : Char → Bool) (l : List Char) :
    List.dropWhile p (List.rdropWhile p (List.dropWhile p l)) =
      List.rdropWhile p (List.dropWhile p l) := by
  rw [List.dropWhile_eq_self_iff]
  intro hl
  obtain ⟨t, ht⟩ := List.rdropWhile_prefix p (List.dropWhile p l)
  have hlen : 0 < (List.dropWhile p l).length := by
    rw [← ht, List.length_append]
    omega
  have hget : (List.rdropWhile p (List.dropWhile p l)).get ⟨0, hl⟩ =
      (List.dropWhile p l).get ⟨0, hlen⟩ := by
    simp only [List.get_eq_getElem]
    rw [List.getElem_of_eq ht.symm hlen]
    exact (List.getElem_append_left hl).symm
  rw [hget]
  exact List.dropWhile_get_zero_not p l hlen

theorem pyStrip_idem (s : String) : pyStrip (pyStrip s) = pyStrip s := by
  unfold pyStrip
  refine congrArg String.mk ?_
  show List.rdropWhile _ (List.dropWhile _ (List.rdropWhile _ (List.dropWhile _ s.data))) =
    List.rdropWhile _ (List.dropWhile _ s.data)
  rw [dropWhile_rdropWhile_dropWhile, List.rdropWhile_idempotent]

theorem zfill5_pyStrip (s : String) : zfill5 (pyStrip s) = zfill5 s := by
  unfold zfill5
  rw [pyStrip_idem]

theorem get_account_pyStrip (am : AccountManager) (s : String) :
    am.get_account (pyStrip s) = am.get_account s := by
  unfold AccountManager.get_account
  rw [zfill5_pyStrip]

/-- Whitespace characters are not decimal digits. -/
theorem isDigit_eq_false_of_isWhitespace {c : Char} (h : c.isWhitespace = true) :
    c.isDigit = false := by
  simp only [Char.isWhitespace, Bool.or_eq_true, decide_eq_true_eq, beq_iff_eq] at h
  rcases h with ((h | h) | h) | h <;> subst h <;> decide

theorem filter_isDigit_dropWhile_isWhitespace (l : List Char) :
    (List.dropWhile Char.isWhitespace l).filter Char.isDigit = l.filter Char.isDigit := by
  induction l with
  | nil => rfl
  | cons c t ih =>
    by_cases h : c.isWhitespace = true
    · rw [List.dropWhile_cons_of_pos h, ih, List.filter_cons,
        isDigit_eq_false_of_isWhitespace h]
      simp
    · rw [List.dropWhile_cons_of_neg h]

theorem filter_isDigit_rdropWhile_isWhitespace (l : List Char) :
    (List.rdropWhile Char.isWhitespace l).filter Char.isDigit = l.filter Char.isDigit := by
  rw [List.rdropWhile, List.filter_reverse, filter_isDigit_dropWhile_isWhitespace,
    ← List.filter_reverse, List.reverse_reverse]

theorem format_account_pyStrip (s : String) :
    format_account (pyStrip s) = format_account s := by
  unfold format_account pyStrip
  refine congrArg (fun l => padZeros 5 (toString (digitsToNat l))) ?_
  show List.filter _ (List.rdropWhile _ (List.dropWhile _ s.data)) = _
  rw [filter_isDigit_rdropWhile_isWhitespace, filter_isDigit_dropWhile_isWhitespace]

theorem setAssoc_lookup_self (l : List (String × BankAccount)) (k : String) (v : BankAccount) :
    (setAssoc l k v).lookup k = some v := by
  induction l with
  | nil => simp [setAssoc, List.lookup]
  | cons p t ih =>
    rw [setAssoc]
    split
    · simp [List.lookup]
    · rw [List.lookup]
      split
      · simp_all
      · exact ih

/-- Stripping never lengthens a string. -/
theorem pyStrip_length_le (s : String) : (pyStrip s).length ≤ s.length := by
  unfold pyStrip
  show (List.rdropWhile _ (List.dropWhile _ s.data)).length ≤ s.data.length
  exact le_trans (List.rdropWhile_prefix _ _).length_le
    (List.dropWhile_suffix _).length_le

/-- Taking at most `n` characters yields at most `n` characters. -/
theorem pyTake_length_le (n : Nat) (s : String) : (pyTake n s).length ≤ n := by
  unfold pyTake
  show (s.data.take n).length ≤ n
  rw [List.length_take]
  omega

/-- Taking `n` characters of a string no longer than `n` changes nothing. -/
theorem pyTake_of_length_le {n : Nat} {s : String} (h : s.length ≤ n) :
    pyTake n s = s := by
  unfold pyTake
  exact String.ext (List.take_of_length_le h)

/-- Zero-padding a string already at least `w` long changes nothing. -/
theorem padZeros_of_le {w : Nat} {s : String} (h : w ≤ s.length) :
    padZeros w s = s := by
  unfold padZeros
  rw [Nat.sub_eq_zero_of_le h, List.replicate_zero]
  exact String.ext (List.nil_append s.data)

/-- Zero-padding to width `w` yields at least `w` characters. -/
theorem padZeros_length_ge (w : Nat) (s : String) : w ≤ (padZeros w s).length := by
  unfold padZeros
  simp only [String.length_append, String.length_mk, List.length_replicate]
  omega

/-- `BankAccount.withdraw` succeeds exactly when the amount is positive and
covered, and then debits it. -/
theorem withdraw_some {acct acct' : BankAccount} {a : ℚ}
    (h : acct.withdraw a = some acct') :
    0 < a ∧ a ≤ acct.balance ∧ acct' = { acct with balance := acct.balance - a } := by
  unfold BankAccount.withdraw at h
  split at h
  case isTrue hle => exact absurd h (by simp)
  case isFalse hle =>
    split at h
    case isTrue hge =>
      refine ⟨not_le.mp hle, hge, ?_⟩
      injection h with h2
      exact h2.symm
    case isFalse => exact absurd h (by simp)

/-- Every non-success branch of `process_withdrawal` leaves the state as it
found it. -/
theorem process_withdrawal_cases (st : SystemState) (n : String) (a : ℚ) :
    (process_withdrawal st n a).1 = st ∨ (process_withdrawal st n a).2 = .ok := by
  rcases hacc : st.accounts.get_account (pyStrip n) with _ | acct <;>
    simp only [process_withdrawal, hacc] <;> repeat' split
  all_goals simp

/-- A `process_withdrawal` run that ends in success passed the session-limit
check. -/
theorem process_withdrawal_ok_can (st : SystemState) (n : String) (a : ℚ)
    (h : (process_withdrawal st n a).2 = .ok) :
    st.session.can_withdraw a = true := by
  rcases hacc : st.accounts.get_account (pyStrip n) with _ | acct <;>
    simp only [process_withdrawal, hacc] at h <;> repeat' split at h
  all_goals simp_all

/-- Admin sessions always pass the withdrawal-limit check. -/
theorem can_withdraw_admin {s : SessionManager} (h : s.session_mode = some "admin")
    (a : ℚ) : s.can_withdraw a = true := by
  simp [SessionManager.can_withdraw, h]

/-- Every non-success branch of `process_transfer` leaves the state as it
found it. -/
theorem process_transfer_cases (st : SystemState) (f t : String) (a : ℚ) :
    (process_transfer st f t a).1 = st ∨ (process_transfer st f t a).2 = .ok := by
  rcases hf : st.accounts.get_account (pyStrip f) with _ | aF <;>
    rcases ht2 : st.accounts.get_account (pyStrip t) with _ | aT <;>
    simp only [process_transfer, hf, ht2] <;> repeat' split
  all_goals simp

/-- A `process_transfer` run that ends in success debited its source account:
the source lookup succeeded and `withdraw` accepted the amount. -/
theorem process_transfer_ok_withdraw (st : SystemState) (f t : String) (a : ℚ)
    (h : (process_transfer st f t a).2 = .ok) :
    ∃ aF aF', st.accounts.get_account (pyStrip f) = some aF ∧
      aF.withdraw a = some aF' := by
  rcases hf : st.accounts.get_account (pyStrip f) with _ | aF <;>
    rcases ht2 : st.accounts.get_account (pyStrip t) with _ | aT <;>
    simp only [process_transfer, hf, ht2] at h <;> repeat' split at h
  all_goals simp_all

/-- When the scan returns an index, it is the first free one at or after the
start. -/
theorem scanFree_some (am : AccountManager) :
    ∀ fuel start i, am.scanFree start fuel = some i →
      start ≤ i ∧ i < start + fuel ∧ am.isFree i = true ∧
        ∀ j, start ≤ j → j < i → am.isFree j = false := by
  intro fuel
  induction fuel with
  | zero => intro start i h; simp [AccountManager.scanFree] at h
  | succ f ih =>
    intro start i h
    rw [AccountManager.scanFree] at h
    split at h
    case isTrue hfree =>
      cases h
      exact ⟨Nat.le_refl _, by omega, hfree, fun j h1 h2 => absurd h1 (by omega)⟩
    case isFalse hfree =>
      obtain ⟨h1, h2, h3, h4⟩ := ih (start + 1) i h
      refine ⟨by omega, by omega, h3, fun j hj hji => ?_⟩
      rcases Nat.eq_or_lt_of_le hj with rfl | hj'
      · exact Bool.eq_false_iff.mpr hfree
      · exact h4 j hj' hji

/-- The scan fails exactly when no index in its window is free. -/
theorem scanFree_none (am : AccountManager) :
    ∀ fuel start, am.scanFree start fuel = none ↔
      ∀ j, start ≤ j → j < start + fuel → am.isFree j = false := by
  intro fuel
  induction fuel with
  | zero =>
    intro start
    constructor
    · intro _ j h1 h2
      exact absurd h2 (by omega)
    · intro _
      rfl
  | succ f ih =>
    intro start
    rw [AccountManager.scanFree]
    split
    case isTrue hfree =>
      constructor
      · intro h'
        exact absurd h' (by simp)
      · intro hall
        exact absurd (hall start (Nat.le_refl _) (by omega)) (by simp [hfree])
    case isFalse hfree =>
      rw [ih (start + 1)]
      constructor
      · intro hall j h1 h2
        rcases Nat.eq_or_lt_of_le h1 with rfl | h1'
        · exact Bool.eq_false_iff.mpr hfree
        · exact hall j h1' (by omega)
      · intro hall j h1 h2
        exact hall j (by omega) (by omega)

/-- A free index is in neither the accounts dictionary nor the tombstone
set. -/
theorem isFree_not_deleted {am : AccountManager} {i : Nat}
    (h : am.isFree i = true) : padZeros 5 (toString i) ∉ am.deleted_set := by
  unfold AccountManager.isFree at h
  simp only [Bool.and_eq_true, Bool.not_eq_true'] at h
  intro hmem
  have h2 := h.2
  simp [List.contains, hmem] at h2

/-- Extracting the misc field of a transfer record: with a 5-character
account field and an 8-character amount field, the 39-character prefix is
dropped exactly. -/
theorem misc_field_record_line_02 (acc amt misc : String)
    (h5 : acc.length = 5) (h8 : amt.length = 8) :
    misc_field (record_line "02" "" acc amt misc) = misc := by
  have hP : (("02" ++ " " ++ ljust 20 "" ++ " " ++ acc ++ " " ++ amt ++ " ").data).length = 39 := by
    show ("02" ++ " " ++ ljust 20 "" ++ " " ++ acc ++ " " ++ amt ++ " ").length = 39
    simp [ljust, spaces, h5, h8]
    decide
  have hdrop := @List.drop_left' Char
    (("02" ++ " " ++ ljust 20 "" ++ " " ++ acc ++ " " ++ amt ++ " ").data) misc.data 39 hP
  exact congrArg String.mk hdrop

/-! ## Concrete fixtures used by witnesses and counterexamples -/

/-- A small ledger: two active student-plan accounts. -/
def acctAlice : BankAccount :=
  { account_number := "00001", holder_name := "Alice", balance := 100,
    status := "A", plan := "SP" }

def acctBob : BankAccount :=
  { account_number := "00002", holder_name := "Bob", balance := 50,
    status := "A", plan := "SP" }

def exManager : AccountManager :=
  { accounts := [("00001", acctAlice), ("00002", acctBob)], deleted_set := [] }

/-- Admin session over the two-account ledger, empty record buffer. -/
def exAdminState : SystemState :=
  { session := SessionManager.start_admin_session, accounts := exManager, log := [] }

/-! ## Claims -/

/-- C1 (counterexample): a successful transfer of $10 between the two
fixture accounts appends exactly one transaction record, not the two the
claim asserts. -/
theorem C1_counterexample :
    (process_transfer exAdminState "00001" "00002" (10 : ℚ)).2 = TxResult.ok ∧
    ¬((process_transfer exAdminState "00001" "00002" (10 : ℚ)).1.log.length = 2) := by
  with_unfolding_all decide

/-- C1 (amended): every successful transfer appends exactly one transaction
record to the buffer; that record is the code-"02" line whose misc argument
is the destination account's formatted 5-digit number, and (for in-range
account and amount fields) extracting the misc field of the line returns
exactly that number. -/
theorem C1_transfer_single_record (st : SystemState) (f t : String) (a : ℚ)
    (st' : SystemState) (h : process_transfer st f t a = (st', .ok)) :
    st'.log = st.log ++ [log_transfer_line (pyStrip f) (pyStrip t) a] ∧
    log_transfer_line (pyStrip f) (pyStrip t) a =
      record_line "02" "" (format_account (pyStrip f)) (format_amount a)
        (format_account t) ∧
    ((format_account (pyStrip f)).length = 5 → (format_amount a).length = 8 →
      misc_field (log_transfer_line (pyStrip f) (pyStrip t) a) = format_account t) := by
  refine ⟨?_, ?_, ?_⟩
  · rcases hf : st.accounts.get_account (pyStrip f) with _ | aF <;>
      rcases ht2 : st.accounts.get_account (pyStrip t) with _ | aT <;>
      simp only [process_transfer, hf, ht2] at h <;> repeat' split at h
    all_goals simp_all
    all_goals rw [← h]
  · unfold log_transfer_line
    rw [format_account_pyStrip t]
  · intro hl5 hl8
    unfold log_transfer_line
    rw [misc_field_record_line_02 _ _ _ hl5 hl8]
    exact format_account_pyStrip t

/-- C1 (witness): instance of the amended claim on the fixture transfer. -/
theorem C1_witness :
    (process_transfer exAdminState "00001" "00002" (10 : ℚ)).1.log =
        exAdminState.log ++ [log_transfer_line (pyStrip "00001") (pyStrip "00002") 10] ∧
    log_transfer_line (pyStrip "00001") (pyStrip "00002") (10 : ℚ) =
      record_line "02" "" (format_account (pyStrip "00001")) (format_amount 10)
        (format_account "00002") ∧
    misc_field (log_transfer_line (pyStrip "00001") (pyStrip "00002") (10 : ℚ)) =
      format_account "00002" := by
  have h := C1_transfer_single_record exAdminState "00001" "00002" 10
    (process_transfer exAdminState "00001" "00002" (10 : ℚ)).1
    (by with_unfolding_all decide)
  exact ⟨h.1, h.2.1, h.2.2 (by with_unfolding_all decide) (by with_unfolding_all decide)⟩

/-- C2: the claim says every record line is exactly 40 characters.  The
format string inserts four separator blanks between the five fields
(2+1+20+1+5+1+8+1+4), so ordinary records are 43 characters and transfer
records (5-character misc) are 44; only the end-of-session marker is 40.
This contradicts both the spec and the class docstring ("Total: 40
characters"). -/
theorem C2_record_length_not_40 :
    (log_withdrawal_line "00042" (30 : ℚ)).length = 43 ∧
    (log_transfer_line "00001" "00002" (10 : ℚ)).length = 44 ∧
    end_marker.length = 40 := by
  with_unfolding_all decide

/-- C3: in a Standard session the withdrawal-limit check permits an amount
exactly when the running total plus that amount stays within $500; whenever
the check refuses, the whole state (balance included) is left unchanged and
the transaction does not succeed; an Admin session is never rejected for
limit reasons. -/
theorem C3_withdrawal_limit (st : SystemState) (n : String) (a : ℚ) :
    (st.session.session_mode = some "standard" →
      (st.session.can_withdraw a = true ↔
        st.session.withdrawal_total + a ≤ STANDARD_WITHDRAWAL_LIMIT)) ∧
    (st.session.can_withdraw a = false →
      (process_withdrawal st n a).1 = st ∧ (process_withdrawal st n a).2 ≠ .ok) ∧
    (st.session.session_mode = some "admin" →
      (process_withdrawal st n a).2 ≠ .limitExceeded) := by
  refine ⟨?_, ?_, ?_⟩
  · intro hmode
    simp only [SessionManager.can_withdraw, hmode]
    split
    case isTrue hc => simp_all
    case isFalse hc =>
      split
      case isTrue hgt => simp [not_le.mpr hgt]
      case isFalse hgt => simp [not_lt.mp hgt]
  · intro hcan
    have hnok : (process_withdrawal st n a).2 ≠ .ok := fun hok =>
      absurd (process_withdrawal_ok_can st n a hok) (by simp [hcan])
    exact ⟨(process_withdrawal_cases st n a).resolve_right hnok, hnok⟩
  · intro hmode
    rcases hacc : st.accounts.get_account (pyStrip n) with _ | acct <;>
      simp only [process_withdrawal, hacc] <;> repeat' split
    all_goals simp_all [can_withdraw_admin hmode]

/-- C3 (witness): a Standard session that has already withdrawn $450 refuses
a further $100 withdrawal and is left untouched. -/
theorem C3_witness :
    (process_withdrawal
        { session := { logged_in := true, session_mode := some "standard",
                       current_user_name := some "Alice", withdrawal_total := 450,
                       transfer_total := 0, paybill_total := 0 },
          accounts := exManager, log := [] } "00001" (100 : ℚ)).1 =
      { session := { logged_in := true, session_mode := some "standard",
                     current_user_name := some "Alice", withdrawal_total := 450,
                     transfer_total := 0, paybill_total := 0 },
        accounts := exManager, log := [] } ∧
    (process_withdrawal
        { session := { logged_in := true, session_mode := some "standard",
                       current_user_name := some "Alice", withdrawal_total := 450,
                       transfer_total := 0, paybill_total := 0 },
          accounts := exManager, log := [] } "00001" (100 : ℚ)).2 ≠ .ok :=
  (C3_withdrawal_limit
    { session := { logged_in := true, session_mode := some "standard",
                   current_user_name := some "Alice", withdrawal_total := 450,
                   transfer_total := 0, paybill_total := 0 },
      accounts := exManager, log := [] } "00001" 100).2.1
    (by with_unfolding_all decide)

/-- C4: transfer is atomic.  If the source account holds less than the
requested amount, the transfer attempt leaves every account balance (source
and destination alike) and the record buffer unchanged. -/
theorem C4_transfer_atomic (st : SystemState) (f t : String) (a : ℚ)
    (aF : BankAccount) (hf : st.accounts.get_account f = some aF)
    (hlt : aF.balance < a) :
    (process_transfer st f t a).1.accounts.get_account t = st.accounts.get_account t ∧
    (process_transfer st f t a).1.accounts.get_account f = some aF ∧
    (process_transfer st f t a).1.log = st.log := by
  have hframe : (process_transfer st f t a).1 = st := by
    rcases process_transfer_cases st f t a with h | h
    · exact h
    · exfalso
      obtain ⟨aF0, aF', h1, h2⟩ := process_transfer_ok_withdraw st f t a h
      rw [get_account_pyStrip] at h1
      rw [hf] at h1
      injection h1 with h1
      subst h1
      obtain ⟨-, hle, -⟩ := withdraw_some h2
      exact absurd hle (not_le.mpr hlt)
  rw [hframe]
  exact ⟨rfl, hf, rfl⟩

/-- C4 (witness): transferring $200 out of the $100 fixture account changes
nothing. -/
theorem C4_witness :
    (process_transfer exAdminState "00001" "00002" (200 : ℚ)).1.accounts.get_account
        "00002" = exAdminState.accounts.get_account "00002" ∧
    (process_transfer exAdminState "00001" "00002" (200 : ℚ)).1.accounts.get_account
        "00001" = some acctAlice ∧
    (process_transfer exAdminState "00001" "00002" (200 : ℚ)).1.log = exAdminState.log :=
  C4_transfer_atomic exAdminState "00001" "00002" 200 acctAlice
    (by with_unfolding_all decide) (by with_unfolding_all decide)

/-- C5: a withdrawal attempt that does not succeed (in particular one
rejected for insufficient funds) leaves the session's running withdrawal
total exactly as it was: the total is incremented only on the success
path, after the ledger debit. -/
theorem C5_failed_withdrawal_keeps_budget (st : SystemState) (n : String) (a : ℚ)
    (h : (process_withdrawal st n a).2 ≠ .ok) :
    (process_withdrawal st n a).1.session.withdrawal_total =
      st.session.withdrawal_total := by
  rw [(process_withdrawal_cases st n a).resolve_right h]

/-- C5 (witness): withdrawing $200 from the $100 fixture account fails with
insufficient funds and leaves the running total at zero. -/
theorem C5_witness :
    (process_withdrawal exAdminState "00001" (200 : ℚ)).2 = .insufficientFunds ∧
    (process_withdrawal exAdminState "00001" (200 : ℚ)).1.session.withdrawal_total =
      exAdminState.session.withdrawal_total :=
  ⟨by with_unfolding_all decide,
   C5_failed_withdrawal_keeps_budget exAdminState "00001" 200
     (by with_unfolding_all decide)⟩

/-- C6: `create_account` clamps the initial balance into `[0, 99999.99]`,
truncates the trimmed holder name to 20 characters (the `BankAccount`
constructor then strips again, removing any whitespace the truncation
exposed), and allocates the lowest index in `0..99999` whose 5-digit
rendering is in neither the accounts dictionary nor the tombstone set (so a
tombstoned number is never reused); it fails exactly when all 100000
numbers are used or tombstoned. -/
theorem C6_create_allocation (am : AccountManager) (name : String) (bal : ℚ) :
    (∀ am' num, am.create_account name bal = some (am', num) →
      num ∉ am.deleted_set ∧
      (∃ i, i < 100000 ∧ num = padZeros 5 (toString i) ∧ am.isFree i = true ∧
        ∀ j, j < i → am.isFree j = false) ∧
      am'.accounts.lookup num =
        some { account_number := num,
               holder_name := pyStrip (pyTake 20 (pyStrip name)),
               balance := max 0 (min bal (99999.99 : ℚ)), status := "A",
               plan := "SP" }) ∧
    (am.create_account name bal = none ↔ ∀ i, i < 100000 → am.isFree i = false) := by
  constructor
  · intro am' num h
    unfold AccountManager.create_account AccountManager.generate_unique_account_number at h
    cases hs : am.scanFree 0 100000 with
    | none => rw [hs] at h; exact absurd h (by simp)
    | some i =>
      rw [hs] at h
      simp only [Option.map_some] at h
      obtain ⟨-, hlt, hfree, hmin⟩ := scanFree_some am 100000 0 i hs
      injection h with h
      injection h with ham hnum
      subst hnum
      subst ham
      refine ⟨isFree_not_deleted hfree, ⟨i, by omega, rfl, hfree,
        fun j hj => hmin j (Nat.zero_le _) hj⟩, ?_⟩
      rw [show ({ am with
            accounts := setAssoc am.accounts (padZeros 5 (toString i))
              (BankAccount.make (padZeros 5 (toString i)) (pyTake 20 (pyStrip name))
                (max 0 (min bal (99999.99 : ℚ))) "A" "SP") } :
          AccountManager).accounts =
        setAssoc am.accounts (padZeros 5 (toString i))
          (BankAccount.make (padZeros 5 (toString i)) (pyTake 20 (pyStrip name))
            (max 0 (min bal (99999.99 : ℚ))) "A" "SP") from rfl,
        setAssoc_lookup_self]
      simp only [BankAccount.make, Option.some.injEq, BankAccount.mk.injEq]
      simp [padZeros_of_le (padZeros_length_ge 5 (toString i)),
        pyTake_of_length_le (le_trans
          (pyStrip_length_le (pyTake 20 (pyStrip name)))
          (pyTake_length_le 20 (pyStrip name)))]
  · unfold AccountManager.create_account AccountManager.generate_unique_account_number
    cases hs : am.scanFree 0 100000 with
    | none =>
      have hall := (scanFree_none am 100000 0).mp hs
      simp only [hs, Option.map_none]
      exact ⟨fun _ i hi => hall i (Nat.zero_le _) (by omega), fun _ => rfl⟩
    | some i =>
      obtain ⟨-, hlt, hfree, -⟩ := scanFree_some am 100000 0 i hs
      simp only [hs, Option.map_some]
      constructor
      · intro hcontra
        exact absurd hcontra (by simp)
      · intro hall
        exact absurd (hall i (by omega)) (by simp [hfree])

/-- C6 (witness): creating an account in an empty ledger stores a trimmed
name, the clamped balance and number 00000, which is tombstone-free. -/
theorem C6_witness :
    "00000" ∉ (AccountManager.mk [] []).deleted_set ∧
    (∃ i, i < 100000 ∧ "00000" = padZeros 5 (toString i) ∧
      (AccountManager.mk [] []).isFree i = true ∧
      ∀ j, j < i → (AccountManager.mk [] []).isFree j = false) ∧
    (AccountManager.mk
        [("00000", { account_number := "00000", holder_name := "Alice",
                     balance := 50, status := "A", plan := "SP" })]
        []).accounts.lookup "00000" =
      some { account_number := "00000",
             holder_name := pyStrip (pyTake 20 (pyStrip " Alice ")),
             balance := max 0 (min 50 (99999.99 : ℚ)), status := "A", plan := "SP" } :=
  (C6_create_allocation (AccountManager.mk [] []) " Alice " 50).1
    (AccountManager.mk
      [("00000", { account_number := "00000", holder_name := "Alice",
                   balance := 50, status := "A", plan := "SP" })] [])
    "00000" (by with_unfolding_all decide)

/-- C7: the non-negative-balance invariant is preserved.  A withdrawal
succeeds only when the balance covers the amount, then debits exactly that
amount and leaves a non-negative balance; a successful deposit never
decreases the balance and keeps it non-negative. -/
theorem C7_balance_invariant (acct : BankAccount) (a : ℚ) (h0 : 0 ≤ acct.balance) :
    (∀ acct', acct.withdraw a = some acct' →
      a ≤ acct.balance ∧ acct'.balance = acct.balance - a ∧ 0 ≤ acct'.balance) ∧
    (∀ acct', acct.deposit a = some acct' →
      acct.balance ≤ acct'.balance ∧ 0 ≤ acct'.balance) := by
  constructor
  · intro acct' h
    obtain ⟨hpos, hle, hacct⟩ := withdraw_some h
    subst hacct
    exact ⟨hle, rfl, by simp only []; linarith⟩
  · intro acct' h
    unfold BankAccount.deposit at h
    split at h
    case isTrue => exact absurd h (by simp)
    case isFalse hle =>
      injection h with h2
      subst h2
      have := not_le.mp hle
      exact ⟨by simp only []; linarith, by simp only []; linarith⟩

/-- C7 (witness): withdrawing $30 then depositing $30 on the $100 fixture
account keeps the invariant. -/
theorem C7_witness :
    ((30 : ℚ) ≤ acctAlice.balance ∧
      ({ acctAlice with balance := 70 } : BankAccount).balance = acctAlice.balance - 30 ∧
      (0 : ℚ) ≤ ({ acctAlice with balance := 70 } : BankAccount).balance) ∧
    (acctAlice.balance ≤ ({ acctAlice with balance := 130 } : BankAccount).balance ∧
      (0 : ℚ) ≤ ({ acctAlice with balance := 130 } : BankAccount).balance) :=
  ⟨(C7_balance_invariant acctAlice 30 (by with_unfolding_all decide)).1
      { acctAlice with balance := 70 } (by with_unfolding_all decide),
   (C7_balance_invariant acctAlice 30 (by with_unfolding_all decide)).2
      { acctAlice with balance := 130 } (by with_unfolding_all decide)⟩

/-- C8: logout writes the buffered records in append (chronological) order
followed by the blank "00" terminator when the file write succeeds, loses
them when it fails, and in either case resets the session to the cleared
logged-out state. -/
theorem C8_logout_flush_and_reset (st : SystemState)
    (h : st.session.is_logged_in = true) (io : Bool) :
    (process_logout st io).1.session = SessionManager.cleared ∧
    (process_logout st io).1.session.logged_in = false ∧
    (process_logout st true).2 = some (st.log ++ [end_marker]) ∧
    (process_logout st false).2 = none ∧
    end_marker = "00" ++ spaces 38 := by
  unfold process_logout
  simp [h, SessionManager.end_session, write_lines]
  exact ⟨rfl, rfl⟩

/-- C8 (witness): logging out of the fixture admin session. -/
theorem C8_witness :
    (process_logout exAdminState true).1.session = SessionManager.cleared ∧
    (process_logout exAdminState true).1.session.logged_in = false ∧
    (process_logout exAdminState true).2 = some (exAdminState.log ++ [end_marker]) ∧
    (process_logout exAdminState false).2 = none ∧
    end_marker = "00" ++ spaces 38 :=
  C8_logout_flush_and_reset exAdminState (by with_unfolding_all decide) true

/-- C9: a login attempt while a session is active is answered with an
error and changes nothing: in particular the running limit totals keep
their values instead of being reset. -/
theorem C9_no_nested_login (st : SystemState) (t u : String)
    (h : st.session.logged_in = true) :
    handle_login st t u = (st, .alreadyLoggedIn) ∧
    (handle_login st t u).1.session.withdrawal_total = st.session.withdrawal_total ∧
    (handle_login st t u).1.session.transfer_total = st.session.transfer_total ∧
    (handle_login st t u).1.session.paybill_total = st.session.paybill_total := by
  have hh : handle_login st t u = (st, .alreadyLoggedIn) := by
    unfold handle_login SessionManager.is_logged_in
    simp [h]
  exact ⟨hh, by rw [hh], by rw [hh], by rw [hh]⟩

/-- C9 (witness): attempting a standard login over the active fixture admin
session is rejected without touching the state. -/
theorem C9_witness :
    handle_login exAdminState "standard" "Alice" = (exAdminState, .alreadyLoggedIn) ∧
    (handle_login exAdminState "standard" "Alice").1.session.withdrawal_total =
      exAdminState.session.withdrawal_total ∧
    (handle_login exAdminState "standard" "Alice").1.session.transfer_total =
      exAdminState.session.transfer_total ∧
    (handle_login exAdminState "standard" "Alice").1.session.paybill_total =
      exAdminState.session.paybill_total :=
  C9_no_nested_login exAdminState "standard" "Alice" (by with_unfolding_all decide)

/-- C10: deleting an account number that was already tombstoned still
returns `True`, because the record is never removed from the accounts
dictionary, even though looking the same number up returns `None`. -/
theorem C10_delete_tombstoned (am : AccountManager) (n : String)
    (h : (am.delete_account n).2 = true) :
    ((am.delete_account n).1.delete_account n).2 = true ∧
    (am.delete_account n).1.get_account n = none := by
  unfold AccountManager.delete_account at h
  split at h
  case isFalse => exact absurd h (by simp)
  case isTrue hsome =>
    have h1 : (am.delete_account n).1 =
        { am with deleted_set := zfill5 n :: am.deleted_set } := by
      unfold AccountManager.delete_account
      rw [if_pos hsome]
    constructor
    · rw [h1]
      unfold AccountManager.delete_account
      simp [hsome]
    · rw [h1]
      unfold AccountManager.get_account
      simp

/-- C10 (witness): tombstoning fixture account 00001 twice. -/
theorem C10_witness :
    ((exManager.delete_account "00001").1.delete_account "00001").2 = true ∧
    (exManager.delete_account "00001").1.get_account "00001" = none :=
  C10_delete_tombstoned exManager "00001" (by with_unfolding_all decide)

end Banking

